import Mathlib

/-!
Verification of the PromptCanva-Pro quota / durable-storage core.

This file shallowly embeds the two components of the repository's core:

* `backend/services/persistent_storage.py` (`PersistentStorage`): atomic
  JSON writes with a `.backup` sibling, backup-recovering reads, artifact
  and generation-record persistence, favorite toggling;
* `backend/services/usage_tracker.py` (`UsageTracker`): the per-day per-identity
  quota ledger with lazy 7-day cleanup, fail-open loads, and admin reset.

File I/O is modelled by explicit state: a JSON file on disk is either absent,
present with parseable content, or present but unparseable/unreadable.  Machine
steps that can raise (`json.dump`, `os.replace`) are modelled with an explicit
failure-injection argument naming the step that raises, so that the exception
paths of the Python code become total functions on states.
-/

namespace PromptCanva

/-! ### Association lists standing for Python dicts

Python dicts with string keys are modelled as association lists in insertion
order; keys are unique in any dict the code actually builds, and theorems that
need that uniqueness take it as a hypothesis.  `alGet m k d` is `m.get(k, d)`,
`alSet` is `m[k] = v` (replace in place, else append), `alErase` is `del m[k]`
(first occurrence), `alMem` is `k in m`. -/

def alGet (m : List (String × α)) (k : String) (d : α) : α :=
  match m with
  | [] => d
  | p :: rest => if p.1 == k then p.2 else alGet rest k d

def alMem (m : List (String × α)) (k : String) : Bool :=
  match m with
  | [] => false
  | p :: rest => p.1 == k || alMem rest k

def alSet (m : List (String × α)) (k : String) (v : α) : List (String × α) :=
  match m with
  | [] => [(k, v)]
  | p :: rest => if p.1 == k then (k, v) :: rest else p :: alSet rest k v

def alErase (m : List (String × α)) (k : String) : List (String × α) :=
  match m with
  | [] => []
  | p :: rest => if p.1 == k then rest else p :: alErase rest k

/-! ### Durable Append Store: file-state model

`PersistentStorage` keeps, for each collection, a target file, a `.backup`
sibling, and a transient `.tmp` file.  A file is `none` when absent; a present
file either holds parseable content (`valid`) or raises on read (`corrupt`,
covering both `json.JSONDecodeError` and I/O errors, since
`_read_json_safe` catches bare `Exception`). -/

inductive FileContent (α : Type) where
  | valid (a : α)
  | corrupt
  deriving DecidableEq, Repr

structure FS (α : Type) where
  target : Option (FileContent α)
  backup : Option (FileContent α)
  temp : Option (FileContent α)
  deriving DecidableEq, Repr

/-- The steps of `_write_json_atomic` at which an exception can be injected:
step 1 is `json.dump` to the `.tmp` file (lines 59-60), step 2 is
`os.replace(file_path, backup_path)` (lines 63-65), step 3 is
`os.replace(temp_path, file_path)` (line 67). -/
inductive WStep where
  | step1
  | step2
  | step3
  deriving DecidableEq, Repr

structure WriteResult (α : Type) where
  ok : Bool
  fs : FS α
  deriving DecidableEq, Repr

/-- `PersistentStorage._write_json_atomic` (persistent_storage.py lines 55-72).
Writes the serialized data to `file_path + ".tmp"`, renames any existing target
to `file_path + ".backup"`, renames the temp file into place; on any exception
it removes the temp file and re-raises (`ok = false`).  `failAt` injects an
exception at the named step; a step that is skipped (step 2 when the target is
absent) cannot raise. -/
def write_json_atomic (fs : FS α) (a : α) (failAt : Option WStep) : WriteResult α :=
  if failAt = some WStep.step1 then
    { ok := false, fs := { fs with temp := none } }
  else
    let fs1 : FS α := { fs with temp := some (FileContent.valid a) }
    match fs1.target with
    | some c =>
      if failAt = some WStep.step2 then
        { ok := false, fs := { fs1 with temp := none } }
      else
        let fs2 : FS α := { target := none, backup := some c, temp := fs1.temp }
        if failAt = some WStep.step3 then
          { ok := false, fs := { fs2 with temp := none } }
        else
          { ok := true, fs := { fs2 with target := fs2.temp, temp := none } }
    | none =>
      if failAt = some WStep.step3 then
        { ok := false, fs := { fs1 with temp := none } }
      else
        { ok := true, fs := { fs1 with target := fs1.temp, temp := none } }

/-- `PersistentStorage._read_json_safe` (persistent_storage.py lines 74-94).
If the target exists and parses, return its content.  If reading it raises, the
`except` branch tries the `.backup` file and uses it when valid.  If the target
is absent, the `try` block falls through with no exception, so control reaches
`return default` directly, without consulting the backup. -/
def read_json_safe (fs : FS α) (default : α) : α :=
  match fs.target with
  | some (FileContent.valid a) => a
  | some FileContent.corrupt =>
    match fs.backup with
    | some (FileContent.valid b) => b
    | _ => default
  | none => default

/-! ### Records

`save_image` persists arbitrary metadata dicts; the fields the core inspects
are `id`, `user_id` and `is_favorite` (see `update_image_favorite`), so the
remaining metadata is carried opaquely in `rest`. -/

structure ImageRec where
  id : String
  user_id : String
  is_favorite : Bool
  rest : String
  deriving DecidableEq, Repr

/-- A generation record as built by `save_generation_record` (lines 159-165):
derived `id` and `timestamp` strings plus the caller-supplied fields, carried
opaquely where the core never inspects them. -/
structure GenRec where
  user_id : String
  image_id : String
  rest : String
  deriving DecidableEq, Repr

structure OpResult (α : Type) where
  raised : Bool
  fs : FS α
  deriving DecidableEq, Repr

/-- `PersistentStorage.save_image` (persistent_storage.py lines 96-117): under
the instance lock, read the image list (backup-recovering, default `[]`),
append the new record, write atomically; on any exception, log and `raise e`
(line 117), so a failed write propagates.  The every-10th-image snapshot
(`_create_backup`, lines 111-113) writes only to the separate `backups/`
directory and swallows its own errors (lines 195-196), so it affects neither
this file triple nor the raised flag. -/
def save_image (fs : FS (List ImageRec)) (rec : ImageRec) (failAt : Option WStep) :
    OpResult (List ImageRec) :=
  let images := read_json_safe fs []
  let w := write_json_atomic fs (images ++ [rec]) failAt
  { raised := !w.ok, fs := w.fs }

/-- `PersistentStorage.save_generation_record` (persistent_storage.py lines
153-173): under the instance lock, read the generation list, append the new
record, write atomically; the `except` clause (lines 172-173) only logs the
error and does not re-raise, so the function always returns normally. -/
def save_generation_record (fs : FS (List GenRec)) (rec : GenRec) (failAt : Option WStep) :
    OpResult (List GenRec) :=
  let gens := read_json_safe fs []
  let w := write_json_atomic fs (gens ++ [rec]) failAt
  { raised := false, fs := w.fs }

/-- The `for img in images` loop of `update_image_favorite` (lines 139-144):
find the first record whose `id` and `user_id` both match, set its
`is_favorite` in place, and report the updated list; `none` when no record
matches both. -/
def updateFirst (images : List ImageRec) (i u : String) (v : Bool) :
    Option (List ImageRec) :=
  match images with
  | [] => none
  | r :: rs =>
    if r.id == i && r.user_id == u then
      some ({ r with is_favorite := v } :: rs)
    else
      match updateFirst rs i u v with
      | some rs' => some (r :: rs')
      | none => none

/-- `PersistentStorage.update_image_favorite` (persistent_storage.py lines
133-151): under the instance lock, read the image list; on the first record
matching both `id` and `user_id`, set `is_favorite`, write the list atomically
and return `True`; if the loop finds no match, return `False` without writing.
The `except` clause returns `False`, so a failed write also yields `False`
(with the file state the failed write left behind). -/
def update_image_favorite (fs : FS (List ImageRec)) (i u : String) (v : Bool)
    (failAt : Option WStep) : Bool × FS (List ImageRec) :=
  let images := read_json_safe fs []
  match updateFirst images i u v with
  | some images' =>
    let w := write_json_atomic fs images' failAt
    if w.ok then (true, w.fs) else (false, w.fs)
  | none => (false, fs)

/-! ### Quota Ledger (`UsageTracker`)

The ledger file maps a date key `"YYYY-MM-DD"` to a bucket mapping identity
keys (`"user:<id>"` / `"ip:<addr>"`) to counts.  `UsageTracker` does its file
I/O directly (plain `open`, no `.backup`), so its file state is a single slot:
absent, present-but-invalid JSON, present-but-unreadable (an I/O error such as
permission denied, i.e. an exception other than `FileNotFoundError` /
`json.JSONDecodeError`), or valid.  The current UTC day key and the 7-day
cutoff key are passed in as parameters (`today`, `cutoff`), standing for
`_get_today_key()` and the `cutoff_key` of `_cleanup_old_data`. -/

abbrev UsageBucket : Type := List (String × Nat)

abbrev UsageData : Type := List (String × UsageBucket)

inductive TrackerFile where
  | absent
  | invalidJson
  | unreadable
  | valid (d : UsageData)
  deriving DecidableEq

/-- Python string comparison (`date_key >= cutoff_key` in `_cleanup_old_data`)
is lexicographic on code points; `strLe s t` is `s <= t` in that order. -/
def charListLe : List Char → List Char → Bool
  | [], _ => true
  | _ :: _, [] => false
  | a :: as, b :: bs => if a < b then true else if b < a then false else charListLe as bs

def strLe (s t : String) : Bool := charListLe s.data t.data

/-- `UsageTracker._identity`-free dispatch: the code branches on `if user_id:`
and otherwise uses the IP; callers pass exactly one of the two. -/
inductive Identity where
  | user (id : String)
  | ip (addr : String)
  deriving DecidableEq, Repr

/-- The dict key built for an identity: `f"user:{user_id}"` (line 89/130) or
`f"ip:{ip_address}"` (line 94/140). -/
def identityKey : Identity → String
  | Identity.user i => "user:" ++ i
  | Identity.ip a => "ip:" ++ a

/-- `self.limits` (usage_tracker.py lines 24-27): authenticated 5, anonymous 1. -/
def identityLimit : Identity → Nat
  | Identity.user _ => 5
  | Identity.ip _ => 1

inductive LoadResult where
  | ok (d : UsageData)
  | raised
  deriving DecidableEq

/-- `UsageTracker._load_usage_data` (usage_tracker.py lines 35-41): returns
the parsed dict; catches only `FileNotFoundError` and `json.JSONDecodeError`
(returning `{}`); any other exception raised by `open`/`read` (e.g.
`PermissionError`) propagates to the caller. -/
def load_usage_data : TrackerFile → LoadResult
  | TrackerFile.valid d => LoadResult.ok d
  | TrackerFile.absent => LoadResult.ok []
  | TrackerFile.invalidJson => LoadResult.ok []
  | TrackerFile.unreadable => LoadResult.raised

/-- `UsageTracker._cleanup_old_data` (usage_tracker.py lines 55-65): keep
exactly the day buckets whose date key compares `>= cutoff_key`, in order. -/
def cleanup_old_data (cutoff : String) (data : UsageData) : UsageData :=
  data.filter (fun p => strLe cutoff p.1)

structure CheckResult where
  raised : Bool
  can : Bool
  current : Nat
  limit : Nat
  file : TrackerFile
  deriving DecidableEq

/-- `UsageTracker.check_usage_limit` (usage_tracker.py lines 67-103): load the
data (propagating a non-caught load exception), clean old buckets in memory,
read today's count for the identity's key, and report
`(current < limit, current, limit)`.  The function performs no save, so the
backing file is returned unchanged in `file`. -/
def check_usage_limit (file : TrackerFile) (ident : Identity) (today cutoff : String) :
    CheckResult :=
  match load_usage_data file with
  | LoadResult.raised => { raised := true, can := false, current := 0, limit := 0, file := file }
  | LoadResult.ok d0 =>
    let d1 := cleanup_old_data cutoff d0
    let bucket := alGet d1 today []
    let cur := alGet bucket (identityKey ident) 0
    let lim := identityLimit ident
    { raised := false, can := decide (cur < lim), current := cur, limit := lim, file := file }

/-- The in-memory body of `increment_usage` (usage_tracker.py lines 117-147),
between the load and the save: clean old buckets, materialize today's bucket
(`data[today_key] = {}` when absent, line 123-124), and either refuse
(`current_usage >= limit`, lines 134-135 / 144-145: return `False`, nothing
written) or store `current_usage + 1` under the identity's key.  The source
duplicates this per identity class with only the key and limit differing;
`identityKey` / `identityLimit` factor that. -/
def incDecide (d0 : UsageData) (ident : Identity) (today cutoff : String) :
    Bool × UsageData :=
  let d1 := cleanup_old_data cutoff d0
  let d2 := if alMem d1 today then d1 else d1 ++ [(today, ([] : UsageBucket))]
  let bucket := alGet d2 today []
  let key := identityKey ident
  let cur := alGet bucket key 0
  if identityLimit ident ≤ cur then
    (false, d2)
  else
    (true, alSet d2 today (alSet bucket key (cur + 1)))

structure IncResult where
  raised : Bool
  ok : Bool
  file : TrackerFile
  deriving DecidableEq

/-- `UsageTracker.increment_usage` (usage_tracker.py lines 105-155): load
(propagating a non-caught load exception), run the in-memory body, and on
success call `_save_usage_data` (line 150) before returning `True`.
`_save_usage_data` (lines 43-49) catches every exception and only logs it, so
a failed save leaves the file unchanged while `increment_usage` still returns
`True`; `saveOk` injects that failure.  On refusal nothing is saved. -/
def increment_usage (file : TrackerFile) (ident : Identity) (today cutoff : String)
    (saveOk : Bool) : IncResult :=
  match load_usage_data file with
  | LoadResult.raised => { raised := true, ok := false, file := file }
  | LoadResult.ok d0 =>
    let r := incDecide d0 ident today cutoff
    if r.1 then
      { raised := false, ok := true,
        file := if saveOk then TrackerFile.valid r.2 else file }
    else
      { raised := false, ok := false, file := file }

/-- `UsageTracker.reset_usage` (usage_tracker.py lines 184-216): inside a
`try`, load the data; if today's bucket exists, delete the identity's entry
when present and save (the save sits inside the `if today_key in data` block);
return `True`.  Any exception inside the `try` (in this model: the load
raising on an unreadable file) is caught and yields `False`.  A failed save is
swallowed by `_save_usage_data` itself. -/
def reset_usage (file : TrackerFile) (ident : Identity) (today : String)
    (saveOk : Bool) : Bool × TrackerFile :=
  match load_usage_data file with
  | LoadResult.raised => (false, file)
  | LoadResult.ok d =>
    if alMem d today then
      let bucket := alGet d today []
      let bucket' := alErase bucket (identityKey ident)
      let d' := alSet d today bucket'
      (true, if saveOk then TrackerFile.valid d' else file)
    else
      (true, file)

/-- Two `increment_usage` calls racing on one tracker: `UsageTracker.__init__`
(usage_tracker.py lines 22-28) creates no lock, so between one call's
`_load_usage_data` and its `_save_usage_data` the other call can complete both
of its own.  This models the interleaving load₁, load₂, save₁, save₂: both
calls read the same file contents, each runs the in-memory body on that same
snapshot, and the second save overwrites the first. -/
def increment_race_both_load_first (file : TrackerFile) (i1 i2 : Identity)
    (today cutoff : String) : Bool × Bool × TrackerFile :=
  match load_usage_data file with
  | LoadResult.raised => (false, false, file)
  | LoadResult.ok d0 =>
    let r1 := incDecide d0 i1 today cutoff
    let r2 := incDecide d0 i2 today cutoff
    let file1 := if r1.1 then TrackerFile.valid r1.2 else file
    let file2 := if r2.1 then TrackerFile.valid r2.2 else file1
    (r1.1, r2.1, file2)

/-! ### Association-list lemmas -/

theorem alGet_filter_keep (q : String × α → Bool) (k : String) (d : α)
    (hq : ∀ v, q (k, v) = true) :
    ∀ m : List (String × α), alGet (m.filter q) k d = alGet m k d := by
  intro m
  induction m with
  | nil => rfl
  | cons p t ih =>
    rcases p with ⟨k', v'⟩
    by_cases hk : k' = k
    · subst hk
      simp [List.filter_cons, hq v', alGet]
    · rw [List.filter_cons]
      by_cases hqp : q (k', v') = true
      · simp [hqp, alGet, hk, ih]
      · simp [hqp, alGet, hk, ih]

theorem alGet_filter_drop (q : String × α → Bool) (k : String) (d : α)
    (hq : ∀ v, q (k, v) = false) :
    ∀ m : List (String × α), alGet (m.filter q) k d = d := by
  intro m
  induction m with
  | nil => rfl
  | cons p t ih =>
    rcases p with ⟨k', v'⟩
    by_cases hk : k' = k
    · subst hk
      simp [List.filter_cons, hq v', ih]
    · rw [List.filter_cons]
      by_cases hqp : q (k', v') = true
      · simp [hqp, alGet, hk, ih]
      · simp [hqp, alGet, hk, ih]

theorem alGet_of_not_mem (k : String) (d : α) :
    ∀ m : List (String × α), alMem m k = false → alGet m k d = d := by
  intro m
  induction m with
  | nil => intro _; rfl
  | cons p t ih =>
    intro h
    simp [alMem] at h
    simp [alGet, h.1, ih h.2]

theorem alGet_append_single (k : String) (v : α) (d : α) :
    ∀ m : List (String × α), alMem m k = false → alGet (m ++ [(k, v)]) k d = v := by
  intro m
  induction m with
  | nil => intro _; simp [alGet]
  | cons p t ih =>
    intro h
    simp [alMem] at h
    simp [alGet, h.1, ih h.2]

theorem alGet_alSet_self (k : String) (v : α) (d : α) :
    ∀ m : List (String × α), alGet (alSet m k v) k d = v := by
  intro m
  induction m with
  | nil => simp [alSet, alGet]
  | cons p t ih =>
    by_cases hk : p.1 = k
    · simp [alSet, hk, alGet]
    · simp [alSet, hk, alGet, ih]

theorem alMem_alSet_self (k : String) (v : α) :
    ∀ m : List (String × α), alMem (alSet m k v) k = true := by
  intro m
  induction m with
  | nil => simp [alSet, alMem]
  | cons p t ih =>
    by_cases hk : p.1 = k
    · simp [alSet, hk, alMem]
    · simp [alSet, hk, alMem, ih]

theorem alSet_alSet_self (k : String) (v w : α) :
    ∀ m : List (String × α), alSet (alSet m k v) k w = alSet m k w := by
  intro m
  induction m with
  | nil => simp [alSet]
  | cons p t ih =>
    by_cases hk : p.1 = k
    · simp [alSet, hk]
    · simp [alSet, hk, ih]

theorem alGet_of_no_key (k : String) (d : α) :
    ∀ m : List (String × α), (∀ p ∈ m, p.1 ≠ k) → alGet m k d = d := by
  intro m
  induction m with
  | nil => intro _; rfl
  | cons p t ih =>
    intro h
    have hp : p.1 ≠ k := h p (by simp)
    simp [alGet, hp]
    exact ih fun q hq => h q (by simp [hq])

theorem alErase_of_no_key (k : String) :
    ∀ m : List (String × α), (∀ p ∈ m, p.1 ≠ k) → alErase m k = m := by
  intro m
  induction m with
  | nil => intro _; rfl
  | cons p t ih =>
    intro h
    have hp : p.1 ≠ k := h p (by simp)
    simp [alErase, hp]
    exact ih fun q hq => h q (by simp [hq])

theorem no_key_alErase (k : String) :
    ∀ m : List (String × α), (m.map Prod.fst).Nodup →
      ∀ p ∈ alErase m k, p.1 ≠ k := by
  intro m
  induction m with
  | nil => intro _ p hp; simp [alErase] at hp
  | cons q t ih =>
    intro hnd p hp
    have hnd' : (t.map Prod.fst).Nodup := (List.nodup_cons.mp hnd).2
    by_cases hk : q.1 = k
    · simp [alErase, hk] at hp
      have hq : q.1 ∉ t.map Prod.fst := (List.nodup_cons.mp hnd).1
      intro hpk
      exact hq (by rw [hk, ← hpk]; exact List.mem_map_of_mem Prod.fst hp)
    · simp [alErase, hk] at hp
      rcases hp with hp | hp
      · rw [hp]; exact hk
      · exact ih hnd' p hp

theorem mem_alErase_subset (k : String) :
    ∀ m : List (String × α), ∀ p ∈ alErase m k, p ∈ m := by
  intro m
  induction m with
  | nil => intro p hp; simp [alErase] at hp
  | cons q t ih =>
    intro p hp
    by_cases hk : q.1 = k
    · simp [alErase, hk] at hp
      simp [hp]
    · simp [alErase, hk] at hp
      rcases hp with hp | hp
      · simp [hp]
      · simp [ih p hp]

theorem mem_alSet_cases (k : String) (v : α) :
    ∀ m : List (String × α), ∀ p ∈ alSet m k v, p = (k, v) ∨ p ∈ m := by
  intro m
  induction m with
  | nil => intro p hp; simp [alSet] at hp; simp [hp]
  | cons q t ih =>
    intro p hp
    by_cases hk : q.1 = k
    · simp [alSet, hk] at hp
      rcases hp with hp | hp
      · simp [hp]
      · simp [hp]
    · simp [alSet, hk] at hp
      rcases hp with hp | hp
      · simp [hp]
      · rcases ih p hp with h | h
        · simp [h]
        · simp [h]

/-- The bucket `increment_usage` reads for `today` after cleanup and
materialization equals the bucket stored for `today` in the raw data, as long
as `today` itself is not older than the cutoff. -/
theorem bucket_after_material (d : UsageData) (today cutoff : String)
    (hc : strLe cutoff today = true) :
    alGet (if alMem (cleanup_old_data cutoff d) today then cleanup_old_data cutoff d
           else cleanup_old_data cutoff d ++ [(today, ([] : UsageBucket))]) today []
      = alGet d today [] := by
  have hkeep : alGet (cleanup_old_data cutoff d) today ([] : UsageBucket) = alGet d today [] := by
    unfold cleanup_old_data
    exact alGet_filter_keep _ _ _ (fun v => hc) d
  by_cases hm : alMem (cleanup_old_data cutoff d) today = true
  · simp [hm, hkeep]
  · have hm' : alMem (cleanup_old_data cutoff d) today = false := by
      cases h : alMem (cleanup_old_data cutoff d) today
      · rfl
      · exact absurd h hm
    rw [if_neg (by simp [hm'])]
    rw [alGet_append_single _ _ _ _ hm']
    rw [← hkeep, alGet_of_not_mem _ _ _ hm']

theorem alMem_filter_false (q : String × α → Bool) (k : String) :
    ∀ m : List (String × α), alMem m k = false → alMem (m.filter q) k = false := by
  intro m
  induction m with
  | nil => intro _; rfl
  | cons p t ih =>
    intro h
    simp [alMem] at h
    rw [List.filter_cons]
    by_cases hqp : q p = true
    · simp [hqp, alMem, h.1, ih h.2]
    · simp [hqp, ih h.2]

/-! ### Claims -/

/-- C1: the claim says a read falls back to `.backup` on parse failure or
absence of the target.  The code falls back only on parse failure: when the
target is merely absent the `try` block raises nothing, the `except` handler
(the only place `.backup` is read) is never entered, and the default is
returned.  Concretely, interrupting the atomic write between step 2 and step 3
leaves the target absent with the full pre-write list in `.backup`, and the
subsequent read returns the empty list, losing the data. -/
theorem C1_read_returns_default_not_backup :
    (write_json_atomic (α := List ImageRec)
        { target := some (FileContent.valid [⟨"img1", "alice", false, "m"⟩]),
          backup := none, temp := none }
        [⟨"img1", "alice", false, "m"⟩, ⟨"img2", "alice", false, "n"⟩]
        (some WStep.step3)).fs
      = { target := none,
          backup := some (FileContent.valid [⟨"img1", "alice", false, "m"⟩]),
          temp := none } ∧
    read_json_safe (α := List ImageRec)
        { target := none,
          backup := some (FileContent.valid [⟨"img1", "alice", false, "m"⟩]),
          temp := none } []
      = [] ∧
    ([] : List ImageRec) ≠ [⟨"img1", "alice", false, "m"⟩] := by
  exact ⟨by decide, rfl, by decide⟩

/-- C2: when the identity's stored count for today already reaches its limit,
`increment_usage` returns `False` before the save, leaving the persisted
ledger unchanged; `strLe cutoff today` says today's key is not older than the
7-day cutoff, which always holds for the real keys. -/
theorem C2_commit_at_limit_is_noop (d : UsageData) (ident : Identity)
    (today cutoff : String) (saveOk : Bool)
    (hc : strLe cutoff today = true)
    (h : identityLimit ident ≤ alGet (alGet d today []) (identityKey ident) 0) :
    increment_usage (TrackerFile.valid d) ident today cutoff saveOk
      = { raised := false, ok := false, file := TrackerFile.valid d } := by
  have hfst : (incDecide d ident today cutoff).1 = false := by
    unfold incDecide
    simp only
    rw [bucket_after_material d today cutoff hc]
    rw [if_pos h]
  simp [increment_usage, load_usage_data, hfst]

theorem C2_witness :
    strLe "2026-10-05" "2026-10-12" = true ∧
    identityLimit (Identity.ip "203.0.113.5")
      ≤ alGet (alGet [("2026-10-12", [("ip:203.0.113.5", 1)])] "2026-10-12" [])
          (identityKey (Identity.ip "203.0.113.5")) 0 ∧
    increment_usage (TrackerFile.valid [("2026-10-12", [("ip:203.0.113.5", 1)])])
        (Identity.ip "203.0.113.5") "2026-10-12" "2026-10-05" true
      = { raised := false, ok := false,
          file := TrackerFile.valid [("2026-10-12", [("ip:203.0.113.5", 1)])] } :=
  ⟨by decide, by decide,
    C2_commit_at_limit_is_noop [("2026-10-12", [("ip:203.0.113.5", 1)])]
      (Identity.ip "203.0.113.5") "2026-10-12" "2026-10-05" true (by decide) (by decide)⟩

/-- C3: `UsageTracker.__init__` creates no lock, so two concurrent
`increment_usage` calls for the same anonymous identity (limit 1) can both
load the ledger before either saves; in that interleaving both calls return
`True` — two successful commits where `min(N, L) = 1` is promised — while the
final stored count is 1. -/
theorem C3_unserialized_commits_exceed_limit :
    increment_race_both_load_first (TrackerFile.valid []) (Identity.ip "203.0.113.5")
        (Identity.ip "203.0.113.5") "2026-10-12" "2026-10-05"
      = (true, true, TrackerFile.valid [("2026-10-12", [("ip:203.0.113.5", 1)])]) ∧
    identityLimit (Identity.ip "203.0.113.5") = 1 := by
  decide

/-- C4: the claim says a failed atomic write leaves both the target and the
prior `.backup` untouched.  Failure at step 3 refutes this: step 2 has already
renamed the target onto the `.backup` path, so the prior backup content is
destroyed and the target path is left with no file. -/
theorem C4_counterexample :
    (write_json_atomic (α := Nat)
        { target := some (FileContent.valid 1), backup := some (FileContent.valid 2),
          temp := none } 7 (some WStep.step3)).ok = false ∧
    (write_json_atomic (α := Nat)
        { target := some (FileContent.valid 1), backup := some (FileContent.valid 2),
          temp := none } 7 (some WStep.step3)).fs.target ≠ some (FileContent.valid 1) ∧
    (write_json_atomic (α := Nat)
        { target := some (FileContent.valid 1), backup := some (FileContent.valid 2),
          temp := none } 7 (some WStep.step3)).fs.backup ≠ some (FileContent.valid 2) := by
  decide

/-- C4 amended: on any failing step the temp file is removed and the error is
propagated (`ok = false`); failures in step 1 or step 2 leave target and
backup untouched; a failure in step 3 leaves them untouched only when no
target existed — when one did, its content has been moved to `.backup`
(destroying the prior backup) and the target path is left absent. -/
theorem C4_failed_write_removes_temp_and_propagates {α : Type} (fs : FS α) (a : α)
    (st : WStep)
    (h : (write_json_atomic fs a (some st)).ok = false) :
    (write_json_atomic fs a (some st)).fs.temp = none ∧
    ((st = WStep.step1 ∨ st = WStep.step2) →
      (write_json_atomic fs a (some st)).fs.target = fs.target ∧
      (write_json_atomic fs a (some st)).fs.backup = fs.backup) ∧
    (st = WStep.step3 →
      (fs.target = none →
        (write_json_atomic fs a (some st)).fs.target = none ∧
        (write_json_atomic fs a (some st)).fs.backup = fs.backup) ∧
    (∀ c, fs.target = some c →
        (write_json_atomic fs a (some st)).fs.target = none ∧
        (write_json_atomic fs a (some st)).fs.backup = some c)) := by
  rcases fs with ⟨tg, bk, tp⟩
  cases st <;> cases tg <;>
    simp_all [write_json_atomic]

theorem C4_witness :
    (write_json_atomic (α := Nat)
        { target := some (FileContent.valid 1), backup := some (FileContent.valid 2),
          temp := none } 7 (some WStep.step3)).ok = false ∧
    (write_json_atomic (α := Nat)
        { target := some (FileContent.valid 1), backup := some (FileContent.valid 2),
          temp := none } 7 (some WStep.step3)).fs.temp = none :=
  ⟨by decide,
    (C4_failed_write_removes_temp_and_propagates
      { target := some (FileContent.valid 1), backup := some (FileContent.valid 2),
        temp := none } 7 WStep.step3 (by decide)).1⟩

/-- C5: the claim says both write operations propagate a failed atomic write.
`save_generation_record` does not: its `except` clause only logs, so the call
returns normally (`raised = false`) although the write failed and the record
was not persisted (the stored list is still empty). -/
theorem C5_counterexample :
    (write_json_atomic (α := List GenRec)
        { target := some (FileContent.valid []), backup := none, temp := none }
        (read_json_safe (α := List GenRec)
          { target := some (FileContent.valid []), backup := none, temp := none } []
          ++ [⟨"u1", "img1", "params"⟩]) (some WStep.step1)).ok = false ∧
    (save_generation_record
        { target := some (FileContent.valid []), backup := none, temp := none }
        ⟨"u1", "img1", "params"⟩ (some WStep.step1)).raised = false ∧
    (save_generation_record
        { target := some (FileContent.valid []), backup := none, temp := none }
        ⟨"u1", "img1", "params"⟩ (some WStep.step1)).fs.target
      = some (FileContent.valid []) := by
  decide

/-- C5 amended: `save_image` re-raises out of its `except` clause, so a failed
atomic write surfaces to the caller; `save_generation_record` catches and only
logs, always returning normally — for it, a failed write is silent. -/
theorem C5_save_image_propagates_save_generation_swallows
    (fsI : FS (List ImageRec)) (r : ImageRec) (fI : Option WStep)
    (fsG : FS (List GenRec)) (g : GenRec) (fG : Option WStep)
    (h : (write_json_atomic fsI (read_json_safe fsI [] ++ [r]) fI).ok = false) :
    (save_image fsI r fI).raised = true ∧
    (save_generation_record fsG g fG).raised = false := by
  constructor
  · simp [save_image, h]
  · rfl

theorem C5_witness :
    (write_json_atomic (α := List ImageRec)
        { target := some (FileContent.valid []), backup := none, temp := none }
        (read_json_safe (α := List ImageRec)
          { target := some (FileContent.valid []), backup := none, temp := none } []
          ++ [⟨"img9", "alice", false, "m"⟩]) (some WStep.step1)).ok = false ∧
    (save_image { target := some (FileContent.valid []), backup := none, temp := none }
        ⟨"img9", "alice", false, "m"⟩ (some WStep.step1)).raised = true ∧
    (save_generation_record
        { target := some (FileContent.valid []), backup := none, temp := none }
        ⟨"u1", "img9", "params"⟩ (some WStep.step1)).raised = false := by
  refine ⟨by decide, ?_, ?_⟩
  · exact (C5_save_image_propagates_save_generation_swallows
      { target := some (FileContent.valid []), backup := none, temp := none }
      ⟨"img9", "alice", false, "m"⟩ (some WStep.step1)
      { target := some (FileContent.valid []), backup := none, temp := none }
      ⟨"u1", "img9", "params"⟩ (some WStep.step1) (by decide)).1
  · exact (C5_save_image_propagates_save_generation_swallows
      { target := some (FileContent.valid []), backup := none, temp := none }
      ⟨"img9", "alice", false, "m"⟩ (some WStep.step1)
      { target := some (FileContent.valid []), backup := none, temp := none }
      ⟨"u1", "img9", "params"⟩ (some WStep.step1) (by decide)).2

/-- C6: the claim says that after any check or commit the stored ledger holds
no bucket older than 7 days.  `check_usage_limit` never saves: on a ledger
whose only bucket is dated 2019-01-01 — far older than the cutoff — the
stored file after a check is unchanged and still holds that bucket. -/
theorem C6_counterexample :
    (check_usage_limit (TrackerFile.valid [("2019-01-01", [("ip:203.0.113.5", 1)])])
        (Identity.ip "203.0.113.5") "2026-10-12" "2026-10-05").file
      = TrackerFile.valid [("2019-01-01", [("ip:203.0.113.5", 1)])] ∧
    strLe "2026-10-05" "2019-01-01" = false := by
  exact ⟨rfl, by decide⟩

/-- All date keys in the data `incDecide` would save are at or after the
cutoff: they come from the cleanup filter, from materializing today's bucket,
or from writing today's bucket back. -/
theorem incDecide_snd_keys_at_or_after_cutoff (d : UsageData) (i : Identity)
    (t c : String) (hc : strLe c t = true) :
    ∀ p ∈ (incDecide d i t c).2, strLe c p.1 = true := by
  have hd2 : ∀ p ∈ (if alMem (cleanup_old_data c d) t then cleanup_old_data c d
      else cleanup_old_data c d ++ [(t, ([] : UsageBucket))]), strLe c p.1 = true := by
    intro p hp
    by_cases hm : alMem (cleanup_old_data c d) t = true
    · rw [if_pos hm] at hp
      exact (List.mem_filter.mp hp).2
    · rw [if_neg hm] at hp
      rcases List.mem_append.mp hp with hp | hp
      · exact (List.mem_filter.mp hp).2
      · simp at hp
        rw [hp]
        exact hc
  intro p hp
  unfold incDecide at hp
  simp only at hp
  by_cases hlim : identityLimit i ≤ alGet (alGet (if alMem (cleanup_old_data c d) t
      then cleanup_old_data c d else cleanup_old_data c d ++ [(t, ([] : UsageBucket))]) t [])
      (identityKey i) 0
  · rw [if_pos hlim] at hp
    exact hd2 p hp
  · rw [if_neg hlim] at hp
    rcases mem_alSet_cases t _ _ p hp with h | h
    · rw [h]
      exact hc
    · exact hd2 p h

/-- C6 amended: the eviction of over-7-day-old buckets happens on an in-memory
copy; `check_usage_limit` persists nothing (the stored file is returned
unchanged), so stale buckets survive a check on disk.  Only a successful
commit persists the cleaned structure: whenever `increment_usage` succeeds and
saves, every bucket in the stored data is dated at or after the cutoff. -/
theorem C6_eviction_persisted_only_by_successful_commit :
    (∀ (f : TrackerFile) (i : Identity) (t c : String),
        (check_usage_limit f i t c).file = f) ∧
    (∀ (d : UsageData) (i : Identity) (t c : String),
        strLe c t = true →
        (increment_usage (TrackerFile.valid d) i t c true).ok = true →
        ∀ d' : UsageData,
          (increment_usage (TrackerFile.valid d) i t c true).file = TrackerFile.valid d' →
          ∀ p ∈ d', strLe c p.1 = true) := by
  constructor
  · intro f i t c
    cases f <;> rfl
  · intro d i t c hc hok d' hfile p hp
    by_cases hr : (incDecide d i t c).1 = true
    · have : (increment_usage (TrackerFile.valid d) i t c true).file
          = TrackerFile.valid (incDecide d i t c).2 := by
        simp [increment_usage, load_usage_data, hr]
      rw [this] at hfile
      have hd' : (incDecide d i t c).2 = d' := by
        injection hfile
      rw [← hd'] at hp
      exact incDecide_snd_keys_at_or_after_cutoff d i t c hc p hp
    · exfalso
      simp [increment_usage, load_usage_data, hr] at hok

theorem C6_witness :
    strLe "2026-10-05" "2026-10-12" = true ∧
    (increment_usage (TrackerFile.valid [("2019-01-01", [("ip:203.0.113.5", 7)])])
        (Identity.ip "203.0.113.5") "2026-10-12" "2026-10-05" true).ok = true ∧
    (∀ p ∈ [("2026-10-12", [("ip:203.0.113.5", 1)])], strLe "2026-10-05" p.1 = true) :=
  ⟨by decide, by decide,
    C6_eviction_persisted_only_by_successful_commit.2
      [("2019-01-01", [("ip:203.0.113.5", 7)])] (Identity.ip "203.0.113.5")
      "2026-10-12" "2026-10-05" (by decide) (by decide)
      [("2026-10-12", [("ip:203.0.113.5", 1)])] (by decide)⟩

/-- No record of `images` matches both the id and the user id, so the update
loop falls through. -/
theorem updateFirst_eq_none (i u : String) (v : Bool) :
    ∀ images : List ImageRec,
      (∀ r ∈ images, ¬(r.id = i ∧ r.user_id = u)) →
      updateFirst images i u v = none := by
  intro images
  induction images with
  | nil => intro _; rfl
  | cons r rs ih =>
    intro h
    have hr := h r (by simp)
    have hcond : (r.id == i && r.user_id == u) = false := by
      by_cases h1 : r.id = i <;> by_cases h2 : r.user_id = u <;>
        simp [h1, h2] at hr ⊢
    simp [updateFirst, hcond, ih fun q hq => h q (by simp [hq])]

/-- C7: a `setFavorite` for an existing record's id issued by a non-owner
matches no record (the loop requires both id and owner to match), so it
returns `False` and writes nothing — the stored collection, and hence the
record's `is_favorite`, is unchanged — and the result is identical to the one
for an id that exists nowhere (`i'`). -/
theorem C7_setFavorite_nonowner_rejected_like_not_found
    (fs : FS (List ImageRec)) (images : List ImageRec) (r : ImageRec)
    (i u i' : String) (v : Bool) (failAt : Option WStep)
    (hfs : fs.target = some (FileContent.valid images))
    (_hr : r ∈ images) (_hid : r.id = i) (hu : u ≠ r.user_id)
    (huniq : ∀ r' ∈ images, r'.id = i → r' = r)
    (hi' : ∀ r' ∈ images, r'.id ≠ i') :
    update_image_favorite fs i u v failAt = (false, fs) ∧
    update_image_favorite fs i' u v failAt = (false, fs) := by
  have hread : read_json_safe fs [] = images := by
    unfold read_json_safe
    rw [hfs]
  have h1 : updateFirst images i u v = none := by
    apply updateFirst_eq_none
    intro r' hr' hand
    have hre := huniq r' hr' hand.1
    rw [hre] at hand
    exact hu hand.2.symm
  have h2 : updateFirst images i' u v = none := by
    apply updateFirst_eq_none
    intro r' hr' hand
    exact hi' r' hr' hand.1
  constructor
  · simp [update_image_favorite, hread, h1]
  · simp [update_image_favorite, hread, h2]

theorem C7_witness :
    ("mallory" : String) ≠ "alice" ∧
    update_image_favorite
        { target := some (FileContent.valid [⟨"art1", "alice", false, "m"⟩]),
          backup := none, temp := none } "art1" "mallory" true none
      = (false, ({ target := some (FileContent.valid [⟨"art1", "alice", false, "m"⟩]),
                   backup := none, temp := none } : FS (List ImageRec))) :=
  ⟨by decide,
    (C7_setFavorite_nonowner_rejected_like_not_found
      { target := some (FileContent.valid [⟨"art1", "alice", false, "m"⟩]),
        backup := none, temp := none }
      [⟨"art1", "alice", false, "m"⟩] ⟨"art1", "alice", false, "m"⟩
      "art1" "mallory" "zzz" true none rfl (by simp) rfl (by decide)
      (by decide) (by decide)).1⟩

/-- C8: the claim says an unreadable or absent backing file is treated as an
empty ledger, never raising.  `_load_usage_data` catches only
`FileNotFoundError` and `json.JSONDecodeError`; a file whose read raises
anything else (e.g. `PermissionError`) propagates the exception out of
`check_usage_limit`. -/
theorem C8_counterexample :
    (check_usage_limit TrackerFile.unreadable (Identity.ip "203.0.113.5")
        "2026-10-12" "2026-10-05").raised = true := by
  rfl

/-- C8 amended: an absent file or one that fails JSON decoding is treated as
an empty ledger — zero current usage and `allowed = true` (both limits are
positive) — but a read failing with any other error (e.g. permission denied)
raises out of `check_usage_limit` instead of failing open. -/
theorem C8_fail_open_only_for_absent_or_undecodable (ident : Identity)
    (today cutoff : String) :
    check_usage_limit TrackerFile.absent ident today cutoff
      = { raised := false, can := true, current := 0, limit := identityLimit ident,
          file := TrackerFile.absent } ∧
    check_usage_limit TrackerFile.invalidJson ident today cutoff
      = { raised := false, can := true, current := 0, limit := identityLimit ident,
          file := TrackerFile.invalidJson } ∧
    (check_usage_limit TrackerFile.unreadable ident today cutoff).raised = true := by
  refine ⟨?_, ?_, rfl⟩ <;>
    cases ident <;>
      simp [check_usage_limit, load_usage_data, cleanup_old_data, alGet, identityLimit]

/-- C9: `reset_usage` is idempotent — the second call deletes an
already-absent key and re-saves the same dict (or, when today's bucket never
existed, does nothing either time) — and afterwards the identity's current
usage for today reads 0.  Dict keys are unique in Python, which the
association-list model takes as the `Nodup` hypothesis on today's bucket; the
zero-usage observation needs the backing file not to be the one state whose
load raises (C8). -/
theorem C9_reset_idempotent_and_zeroes (file : TrackerFile) (ident : Identity)
    (today cutoff : String)
    (hnd : ∀ d : UsageData, file = TrackerFile.valid d →
      ((alGet d today []).map Prod.fst).Nodup) :
    (reset_usage ((reset_usage file ident today true).2) ident today true).2
      = (reset_usage file ident today true).2 ∧
    (file ≠ TrackerFile.unreadable →
      (check_usage_limit ((reset_usage file ident today true).2) ident today cutoff).current
        = 0) := by
  cases file with
  | absent => exact ⟨rfl, fun _ => rfl⟩
  | invalidJson => exact ⟨rfl, fun _ => rfl⟩
  | unreadable => exact ⟨rfl, fun h => absurd rfl h⟩
  | valid d =>
    have hndb : ((alGet d today []).map Prod.fst).Nodup := hnd d rfl
    by_cases hm : alMem d today = true
    · have h1 : (reset_usage (TrackerFile.valid d) ident today true).2
          = TrackerFile.valid (alSet d today (alErase (alGet d today []) (identityKey ident))) := by
        simp [reset_usage, load_usage_data, hm]
      have hm' : alMem (alSet d today (alErase (alGet d today []) (identityKey ident))) today
          = true := alMem_alSet_self today _ d
      have hb' : alGet (alSet d today (alErase (alGet d today []) (identityKey ident))) today []
          = alErase (alGet d today []) (identityKey ident) := alGet_alSet_self today _ [] d
      have hnokey : ∀ p ∈ alErase (alGet d today []) (identityKey ident),
          p.1 ≠ identityKey ident := no_key_alErase (identityKey ident) (alGet d today []) hndb
      have herase2 : alErase (alErase (alGet d today []) (identityKey ident)) (identityKey ident)
          = alErase (alGet d today []) (identityKey ident) :=
        alErase_of_no_key (identityKey ident) _ hnokey
      constructor
      · rw [h1]
        have h2 : (reset_usage
            (TrackerFile.valid (alSet d today (alErase (alGet d today []) (identityKey ident))))
            ident today true).2
            = TrackerFile.valid (alSet (alSet d today (alErase (alGet d today []) (identityKey ident)))
                today (alErase (alGet (alSet d today (alErase (alGet d today []) (identityKey ident)))
                  today []) (identityKey ident))) := by
          simp [reset_usage, load_usage_data, hm']
        rw [h2, hb', herase2, alSet_alSet_self]
      · intro _
        rw [h1]
        simp only [check_usage_limit, load_usage_data]
        by_cases hct : strLe cutoff today = true
        · unfold cleanup_old_data
          rw [alGet_filter_keep _ _ _ (fun v => hct) _]
          rw [hb']
          exact alGet_of_no_key (identityKey ident) 0 _ hnokey
        · have hct' : ∀ v : UsageBucket, strLe cutoff (today, v).1 = false := by
            intro v
            cases h : strLe cutoff today
            · rfl
            · exact absurd h hct
          unfold cleanup_old_data
          rw [alGet_filter_drop _ _ _ hct' _]
          rfl
    · have hm0 : alMem d today = false := by
        cases h : alMem d today
        · rfl
        · exact absurd h hm
      have h1 : (reset_usage (TrackerFile.valid d) ident today true).2
          = TrackerFile.valid d := by
        simp [reset_usage, load_usage_data, hm0]
      constructor
      · rw [h1, h1]
      · intro _
        rw [h1]
        have hmf : alMem (cleanup_old_data cutoff d) today = false :=
          alMem_filter_false _ today d hm0
        simp only [check_usage_limit, load_usage_data]
        rw [alGet_of_not_mem _ _ _ hmf]
        rfl

theorem C9_witness :
    (reset_usage ((reset_usage (TrackerFile.valid [("2026-10-12", [("user:u1", 3)])])
        (Identity.user "u1") "2026-10-12" true).2) (Identity.user "u1") "2026-10-12" true).2
      = (reset_usage (TrackerFile.valid [("2026-10-12", [("user:u1", 3)])])
          (Identity.user "u1") "2026-10-12" true).2 ∧
    (check_usage_limit ((reset_usage (TrackerFile.valid [("2026-10-12", [("user:u1", 3)])])
        (Identity.user "u1") "2026-10-12" true).2) (Identity.user "u1") "2026-10-12"
        "2026-10-05").current = 0 :=
  ⟨(C9_reset_idempotent_and_zeroes (TrackerFile.valid [("2026-10-12", [("user:u1", 3)])])
      (Identity.user "u1") "2026-10-12" "2026-10-05"
      (fun d hd => by injection hd with h; rw [← h]; decide)).1,
   (C9_reset_idempotent_and_zeroes (TrackerFile.valid [("2026-10-12", [("user:u1", 3)])])
      (Identity.user "u1") "2026-10-12" "2026-10-05"
      (fun d hd => by injection hd with h; rw [← h]; decide)).2 (by decide)⟩

/-- C10: when the post-increment save fails, `_save_usage_data` swallows the
exception, so `increment_usage` still returns `True` while the backing file
keeps its prior contents — the commit is acknowledged without being durably
recorded, and the next load sees the pre-increment count. -/
theorem C10_commit_true_despite_failed_save (d : UsageData) (ident : Identity)
    (today cutoff : String)
    (h : (incDecide d ident today cutoff).1 = true) :
    increment_usage (TrackerFile.valid d) ident today cutoff false
      = { raised := false, ok := true, file := TrackerFile.valid d } := by
  simp [increment_usage, load_usage_data, h]

theorem C10_witness :
    (incDecide [] (Identity.ip "203.0.113.5") "2026-10-12" "2026-10-05").1 = true ∧
    increment_usage (TrackerFile.valid []) (Identity.ip "203.0.113.5") "2026-10-12"
        "2026-10-05" false
      = { raised := false, ok := true, file := TrackerFile.valid [] } :=
  ⟨by decide,
    C10_commit_true_despite_failed_save [] (Identity.ip "203.0.113.5") "2026-10-12"
      "2026-10-05" (by decide)⟩

end PromptCanva
